import Mathlib

/-
Verification of the ChargeMitra booking flow
(frontend/src/components/ChargerList.tsx, frontend/src/types/index.ts).

Times of day are modelled in whole minutes, calendar dates as a day index
since the JS epoch, and money/durations as rationals.  The functions below
are shallow embeddings of generateTimeSlots / calculatePriceEstimate /
validateTimeSelection / submitBooking from the BookingFlow component; the
random draws the mock booking makes (Math.random derived id and codes) are
passed in as explicit parameters.
-/

namespace ChargeMitra

/-- Clock time of day, as entered in the HH:mm time pickers of the booking flow. -/
structure ClockTime where
  hour : Nat
  minute : Nat
deriving DecidableEq

/-- Minutes since midnight of a clock time. -/
def ClockTime.toMinutes (t : ClockTime) : Nat := 60 * t.hour + t.minute

/-- Calendar date, as the number of days since the JS epoch (1970-01-01). -/
structure CalDate where
  dayIndex : Nat
deriving DecidableEq

/-- JS Date.getDay convention: day 0 of the epoch (1970-01-01) was a Thursday (4). -/
def CalDate.dayOfWeek (d : CalDate) : Nat := (d.dayIndex + 4) % 7

/-- Whether the date is a Saturday or a Sunday under the JS getDay convention. -/
def CalDate.isWeekend (d : CalDate) : Bool := d.dayOfWeek == 0 || d.dayOfWeek == 6

/-- Model of new Date(format(selectedDate) + T + time): minutes since the epoch.
    Both the start and the end of a selection are parsed against the same
    selected calendar date. -/
def parseDateTime (d : CalDate) (t : ClockTime) : Nat := d.dayIndex * 1440 + t.toMinutes

/-- The pricing_type field of ChargerPricing (types/index.ts line 63). -/
inductive PricingType
  | per_hour
  | per_kwh
  | flat_rate
deriving DecidableEq

/-- ChargerPricing (types/index.ts lines 60-76).  The optional HH:mm strings
    peak_hours_start / peak_hours_end are modelled as optional clock times. -/
structure ChargerPricing where
  id : Nat
  charger_id : Nat
  pricing_type : PricingType
  price_value : ℚ
  min_session_minutes : Nat
  max_session_minutes : Nat
  peak_hours_start : Option ClockTime
  peak_hours_end : Option ClockTime
  peak_price_multiplier : ℚ
  weekend_price_multiplier : ℚ
  booking_fee : ℚ
  overstay_fee_per_hour : ℚ
  late_cancellation_fee : ℚ
  advance_booking_hours : ℚ
  same_day_booking : Bool
deriving DecidableEq

/-- The current_status field of a Charger (types/index.ts line 58). -/
inductive ChargerStatus
  | available
  | in_use
  | maintenance
  | offline
  | fault
deriving DecidableEq

/-- The fields of a Charger (types/index.ts lines 20-52) that the booking flow
    reads: identifier, rated power, operating status and flags, and the
    populated pricing rule. -/
structure Charger where
  id : Nat
  max_power_kw : ℚ
  current_status : ChargerStatus
  is_active : Bool
  auto_accept_bookings : Bool
  pricing : Option ChargerPricing
deriving DecidableEq

/-- BookingStatus (types/index.ts lines 105-113). -/
inductive BookingStatus
  | pending
  | confirmed
  | active
  | completed
  | cancelled
  | failed
  | no_show
  | expired
deriving DecidableEq

/-- PaymentStatus (types/index.ts lines 115-121). -/
inductive PaymentStatus
  | pending
  | processing
  | completed
  | failed
  | refunded
  | partial_refund
deriving DecidableEq

/-- The fields of a Booking (types/index.ts lines 79-103) that the mock
    booking in submitBooking populates with engine-relevant data.  The ISO
    instant strings start_time / end_time are modelled as minutes since the
    epoch. -/
structure Booking where
  id : Nat
  charger_id : Nat
  renter_id : Nat
  start_time : Nat
  end_time : Nat
  status : BookingStatus
  payment_status : PaymentStatus
  booking_code : String
  total_amount : ℚ
  paid_amount : ℚ
  currency : String
  access_code : String
deriving DecidableEq

/-- The PriceEstimate interface local to ChargerList.tsx (lines 371-381). -/
structure PriceEstimate where
  duration_hours : ℚ
  energy_estimate_kwh : ℚ
  subtotal : ℚ
  platform_fee : ℚ
  booking_fee : ℚ
  total : ℚ
  pricing_type : PricingType
  unit_price : ℚ
deriving DecidableEq

/-- JavaScript n || d on a number n: 0 is falsy and falls back to the default d.
    Used for (charger.pricing.min_session_minutes || 30) and
    (charger.pricing.max_session_minutes || 480) at lines 470-471. -/
def jsOrDefault (n d : Nat) : Nat := if n = 0 then d else n

/-- calculatePriceEstimate (ChargerList.tsx lines 458-512).  Returns none on
    each early return (missing time or pricing, end not after start, duration
    out of the min/max session bounds), otherwise the estimate that
    setPriceEstimate stores.  The 8/10 factor is the hard-coded 0.8 (80
    percent efficiency) and 15/100 the hard-coded 0.15 platform commission. -/
def calculatePriceEstimate (selectedDate : CalDate)
    (startTime endTime : Option ClockTime)
    (pricing? : Option ChargerPricing) (max_power_kw : ℚ) : Option PriceEstimate :=
  match startTime, endTime, pricing? with
  | some st, some et, some pricing =>
    let startM := parseDateTime selectedDate st
    let endM := parseDateTime selectedDate et
    if endM ≤ startM then none
    else
      let durationHours : ℚ := ((endM : ℚ) - (startM : ℚ)) / 60
      let minDuration : ℚ := (jsOrDefault pricing.min_session_minutes 30 : ℚ) / 60
      let maxDuration : ℚ := (jsOrDefault pricing.max_session_minutes 480 : ℚ) / 60
      if durationHours < minDuration then none
      else if maxDuration < durationHours then none
      else
        let se : ℚ × ℚ :=
          match pricing.pricing_type with
          | .per_hour =>
              (durationHours * pricing.price_value,
               durationHours * max_power_kw * (8 / 10))
          | .per_kwh =>
              let energyEstimate := durationHours * max_power_kw * (8 / 10)
              (energyEstimate * pricing.price_value, energyEstimate)
          | .flat_rate =>
              (pricing.price_value,
               durationHours * max_power_kw * (8 / 10))
        let subtotal := se.1
        let energyEstimate := se.2
        let bookingFee := pricing.booking_fee
        let platformFee := subtotal * (15 / 100)
        some { duration_hours := durationHours
               energy_estimate_kwh := energyEstimate
               subtotal := subtotal
               platform_fee := platformFee
               booking_fee := bookingFee
               total := subtotal + bookingFee + platformFee
               pricing_type := pricing.pricing_type
               unit_price := pricing.price_value }
  | _, _, _ => none

/-- The toast errors of validateTimeSelection (ChargerList.tsx lines 515-535). -/
inductive TimeSelError
  | missingTimes
  | endNotAfterStart
  | pastStart
deriving DecidableEq

/-- The toast message shown for each validation error. -/
def TimeSelError.message : TimeSelError → String
  | .missingTimes => "Please select start and end time"
  | .endNotAfterStart => "End time must be after start time"
  | .pastStart => "Cannot book in the past"

/-- validateTimeSelection (ChargerList.tsx lines 515-535) with its error made
    explicit: none means the selection is accepted.  The now parameter is the
    instant new Date() returns at the check, in minutes since the epoch; the
    check isBefore(start, new Date()) rejects any start strictly before now,
    with no tolerance. -/
def validateTimeSelectionE (selectedDate : CalDate)
    (startTime endTime : Option ClockTime) (now : Nat) : Option TimeSelError :=
  match startTime, endTime with
  | some st, some et =>
    let startM := parseDateTime selectedDate st
    let endM := parseDateTime selectedDate et
    if endM ≤ startM then some .endNotAfterStart
    else if startM < now then some .pastStart
    else none
  | _, _ => some .missingTimes

/-- validateTimeSelection as the boolean the component returns. -/
def validateTimeSelection (selectedDate : CalDate)
    (startTime endTime : Option ClockTime) (now : Nat) : Bool :=
  (validateTimeSelectionE selectedDate startTime endTime now).isNone

/-- submitBooking (ChargerList.tsx lines 538-598).  It returns early when the
    time selection fails validation or no price estimate is present; otherwise
    the simulated creation always succeeds and yields the mock Booking of
    lines 559-578.  The Math.random draws of that mock (id, booking code,
    access code) are passed in as randId / randBookingCode / randAccessCode;
    userId models user?.id || 0.  There is no consultation of existing
    bookings and no conflict outcome. -/
def submitBooking (charger : Charger) (userId : Nat) (selectedDate : CalDate)
    (startTime endTime : Option ClockTime) (priceEstimate : Option PriceEstimate)
    (now : Nat) (randId : Nat) (randBookingCode randAccessCode : String) :
    Option Booking :=
  if validateTimeSelection selectedDate startTime endTime now then
    match priceEstimate, startTime, endTime with
    | some est, some st, some et =>
      some { id := randId
             charger_id := charger.id
             renter_id := userId
             start_time := parseDateTime selectedDate st
             end_time := parseDateTime selectedDate et
             status := if charger.auto_accept_bookings then .confirmed else .pending
             payment_status := .pending
             booking_code := randBookingCode
             total_amount := est.total
             paid_amount := 0
             currency := "INR"
             access_code := randAccessCode }
    | _, _, _ => none
  else none

/-- Modelled from the spec (section 4.3): whether the half-open booked
    interval intersects the half-open peak window of the rule, when the rule
    has one.  The source never evaluates the peak window. -/
def intervalOverlapsPeak (st et : ClockTime) (rule : ChargerPricing) : Bool :=
  match rule.peak_hours_start, rule.peak_hours_end with
  | some ps, some pe =>
      decide (st.toMinutes < pe.toMinutes) && decide (ps.toMinutes < et.toMinutes)
  | _, _ => false

/-- Modelled from the spec (section 4.3), for comparison with the source: the
    per-duration subtotal the specification prescribes, duration times unit
    price adjusted by the peak multiplier when the interval overlaps the peak
    window and by the weekend multiplier on a weekend day, taking the higher
    of the two when both apply (one of the two policies the spec allows). -/
def specPerDurationSubtotal (d : CalDate) (st et : ClockTime)
    (rule : ChargerPricing) : ℚ :=
  let base := (((et.toMinutes : ℚ) - (st.toMinutes : ℚ)) / 60) * rule.price_value
  match intervalOverlapsPeak st et rule, d.isWeekend with
  | true, true => base * max rule.peak_price_multiplier rule.weekend_price_multiplier
  | true, false => base * rule.peak_price_multiplier
  | false, true => base * rule.weekend_price_multiplier
  | false, false => base

/-- A per-hour pricing rule at 50 per hour with booking fee 10 and the default
    session bounds, as in the R1 scenario of the spec. -/
def ruleR1 : ChargerPricing :=
  ⟨1, 1, .per_hour, 50, 30, 480, none, none, 1, 1, 10, 0, 0, 0, true⟩

/-- An active, auto-accepting charger rated 10 kW carrying ruleR1. -/
def chargerR1 : Charger := ⟨1, 10, .available, true, true, some ruleR1⟩

/-- The estimate state for a 10:00 to 11:00 selection on chargerR1. -/
def estR1 : Option PriceEstimate :=
  calculatePriceEstimate ⟨0⟩ (some ⟨10, 0⟩) (some ⟨11, 0⟩) chargerR1.pricing chargerR1.max_power_kw

/-- C2: for the per-hour rule at 50 per hour with booking fee 10 and platform
    rate 15 percent, the 10:00 to 11:30 booking (duration 1.5 hours) is priced
    with subtotal 75, platform fee 11.25 = 45/4, booking fee 10, and total
    96.25 = 385/4, which is the sum of subtotal, platform fee and booking fee. -/
theorem c2_per_hour_scenario :
    (calculatePriceEstimate ⟨0⟩ (some ⟨10, 0⟩) (some ⟨11, 30⟩) (some ruleR1) 10).map
        (fun e => (e.duration_hours, e.subtotal, e.platform_fee, e.booking_fee, e.total)) =
      some (3 / 2, 75, 45 / 4, 10, 75 + 45 / 4 + 10) ∧ (75 + 45 / 4 + 10 : ℚ) = 385 / 4 := by
  norm_num [calculatePriceEstimate, parseDateTime, ClockTime.toMinutes, jsOrDefault, ruleR1]

/-- C1: evaluation of the code at the failing input: two booking submissions
    for the same charger with overlapping half-open intervals 09:00-10:00 and
    09:30-10:30 on the same date both return a Booking; the submission path
    consults no existing bookings and has no conflict outcome, contradicting
    the claim that exactly one call succeeds and the other receives a
    ConflictError. -/
theorem c1_overlap_both_succeed :
    (parseDateTime ⟨0⟩ ⟨9, 30⟩ < parseDateTime ⟨0⟩ ⟨10, 0⟩ ∧
       parseDateTime ⟨0⟩ ⟨9, 0⟩ < parseDateTime ⟨0⟩ ⟨10, 30⟩) ∧
    (submitBooking chargerR1 7 ⟨0⟩ (some ⟨9, 0⟩) (some ⟨10, 0⟩)
        (calculatePriceEstimate ⟨0⟩ (some ⟨9, 0⟩) (some ⟨10, 0⟩) chargerR1.pricing chargerR1.max_power_kw)
        480 1111 "BKAAAAAAAA" "AAAAAA").isSome = true ∧
    (submitBooking chargerR1 8 ⟨0⟩ (some ⟨9, 30⟩) (some ⟨10, 30⟩)
        (calculatePriceEstimate ⟨0⟩ (some ⟨9, 30⟩) (some ⟨10, 30⟩) chargerR1.pricing chargerR1.max_power_kw)
        480 2222 "BKBBBBBBBB" "BBBBBB").isSome = true := by
  norm_num [calculatePriceEstimate, submitBooking, validateTimeSelection, validateTimeSelectionE, parseDateTime, ClockTime.toMinutes, jsOrDefault, ruleR1, chargerR1, estR1]

/-- C6: evaluation of the code at the failing input: the same requester
    submits the identical request twice (same charger, date, times and
    estimate); the submission path carries no idempotency key, each call draws
    a fresh random id and codes, both calls create a booking, and the two
    results differ, so the repeated call does not return the original Booking. -/
theorem c6_retry_creates_second_booking :
    (submitBooking chargerR1 7 ⟨0⟩ (some ⟨10, 0⟩) (some ⟨11, 0⟩) estR1 540 1111 "BKAAAAAAAA" "AAAAAA").isSome = true ∧
    (submitBooking chargerR1 7 ⟨0⟩ (some ⟨10, 0⟩) (some ⟨11, 0⟩) estR1 540 2222 "BKBBBBBBBB" "BBBBBB").isSome = true ∧
    submitBooking chargerR1 7 ⟨0⟩ (some ⟨10, 0⟩) (some ⟨11, 0⟩) estR1 540 1111 "BKAAAAAAAA" "AAAAAA" ≠
      submitBooking chargerR1 7 ⟨0⟩ (some ⟨10, 0⟩) (some ⟨11, 0⟩) estR1 540 2222 "BKBBBBBBBB" "BBBBBB" := by
  norm_num [calculatePriceEstimate, submitBooking, validateTimeSelection, validateTimeSelectionE, parseDateTime, ClockTime.toMinutes, jsOrDefault, ruleR1, chargerR1, estR1, Booking.mk.injEq]

/-- A charger that is not active (is_active false, status maintenance) but
    still carries ruleR1. -/
def chargerInactive : Charger := ⟨3, 10, .maintenance, false, true, some ruleR1⟩

/-- C5 counterexample: a request on a resource that is not active, with a
    valid time selection and a freshly computed estimate, still creates a
    booking: no resource-activity check exists in the submission path,
    refuting the claim that such requests are rejected with a validation
    error. -/
theorem c5_inactive_resource_books :
    chargerInactive.is_active = false ∧
    (submitBooking chargerInactive 7 ⟨0⟩ (some ⟨10, 0⟩) (some ⟨11, 30⟩)
        (calculatePriceEstimate ⟨0⟩ (some ⟨10, 0⟩) (some ⟨11, 30⟩)
          chargerInactive.pricing chargerInactive.max_power_kw)
        540 41 "BKCCCCCCCC" "CCCCCC").isSome = true := by
  norm_num [calculatePriceEstimate, submitBooking, validateTimeSelection, validateTimeSelectionE, parseDateTime, ClockTime.toMinutes, jsOrDefault, ruleR1, chargerInactive]

/-- A per-hour rule with weekend multiplier 2, peak multiplier 3/2 and no
    peak window. -/
def ruleWeekend : ChargerPricing :=
  ⟨2, 1, .per_hour, 50, 30, 480, none, none, 3 / 2, 2, 10, 0, 0, 0, true⟩

/-- Day index 2 since the epoch, a Saturday under the JS getDay convention. -/
def dateSat : CalDate := ⟨2⟩

/-- C3 counterexample: on a Saturday, with a per-hour rule whose weekend
    multiplier is 2 and which has no peak window, the 10:00 to 11:00 estimate
    has subtotal 50 (duration times unit price, unadjusted) while the spec
    prescribes the weekend-adjusted subtotal 100: the code never applies the
    peak or weekend multipliers. -/
theorem c3_multipliers_ignored :
    CalDate.isWeekend dateSat = true ∧
    ruleWeekend.weekend_price_multiplier = 2 ∧
    intervalOverlapsPeak ⟨10, 0⟩ ⟨11, 0⟩ ruleWeekend = false ∧
    specPerDurationSubtotal dateSat ⟨10, 0⟩ ⟨11, 0⟩ ruleWeekend = 100 ∧
    (calculatePriceEstimate dateSat (some ⟨10, 0⟩) (some ⟨11, 0⟩)
        (some ruleWeekend) 10).map PriceEstimate.subtotal ≠
      some (specPerDurationSubtotal dateSat ⟨10, 0⟩ ⟨11, 0⟩ ruleWeekend) := by
  norm_num [calculatePriceEstimate, parseDateTime, ClockTime.toMinutes, jsOrDefault, ruleWeekend, dateSat, CalDate.isWeekend, CalDate.dayOfWeek, intervalOverlapsPeak, specPerDurationSubtotal]

/-- Subtracting the parsed instants of two clock times on the same selected
    date cancels the day part, leaving the difference of minutes-in-day. -/
theorem parseDateTime_sub (d : CalDate) (st et : ClockTime) :
    ((parseDateTime d et : ℚ)) - ((parseDateTime d st : ℚ)) =
      ((et.toMinutes : ℚ)) - ((st.toMinutes : ℚ)) := by
  unfold parseDateTime
  push_cast
  ring

/-- Comparing the parsed instants of two clock times on the same date is
    comparing their minutes-in-day. -/
theorem parseDateTime_le_iff (d : CalDate) (st et : ClockTime) :
    parseDateTime d et ≤ parseDateTime d st ↔ et.toMinutes ≤ st.toMinutes := by
  unfold parseDateTime
  omega

/-- Inversion for a successful price estimate: every field of the returned
    record is determined by the inputs exactly as lines 483-511 compute it. -/
theorem calcEstimate_inversion (d : CalDate) (st et : ClockTime)
    (rule : ChargerPricing) (pw : ℚ) (e : PriceEstimate)
    (h : calculatePriceEstimate d (some st) (some et) (some rule) pw = some e) :
    e.duration_hours = ((parseDateTime d et : ℚ) - (parseDateTime d st : ℚ)) / 60 ∧
    e.energy_estimate_kwh = e.duration_hours * pw * (8 / 10) ∧
    e.subtotal = (match rule.pricing_type with
       | PricingType.per_hour => e.duration_hours * rule.price_value
       | PricingType.per_kwh => e.energy_estimate_kwh * rule.price_value
       | PricingType.flat_rate => rule.price_value) ∧
    e.platform_fee = e.subtotal * (15 / 100) ∧
    e.booking_fee = rule.booking_fee ∧
    e.total = e.subtotal + e.booking_fee + e.platform_fee ∧
    e.pricing_type = rule.pricing_type ∧
    e.unit_price = rule.price_value := by
  simp only [calculatePriceEstimate] at h
  split at h
  · exact Option.noConfusion h
  split at h
  · exact Option.noConfusion h
  split at h
  · exact Option.noConfusion h
  injection h with h
  subst h
  cases hrt : rule.pricing_type <;> simp [hrt]

/-- C3 (amended): in per-hour (per-duration) pricing mode the subtotal of
    every computed estimate equals duration_hours times the unit price,
    unconditionally: the peak and weekend multipliers of the rule are never
    applied. -/
theorem c3_subtotal_unadjusted (d : CalDate) (st et : ClockTime)
    (rule : ChargerPricing) (pw : ℚ) (e : PriceEstimate)
    (hmode : rule.pricing_type = PricingType.per_hour)
    (h : calculatePriceEstimate d (some st) (some et) (some rule) pw = some e) :
    e.subtotal = e.duration_hours * rule.price_value := by
  rw [(calcEstimate_inversion d st et rule pw e h).2.2.1, hmode]

/-- C4: in per-kWh (per-energy-estimate) pricing mode, every computed
    estimate has estimated energy equal to duration_hours times the estimated
    power times the efficiency factor 0.8 = 8/10, and subtotal equal to that
    energy times the unit price. -/
theorem c4_per_kwh_pricing (d : CalDate) (st et : ClockTime)
    (rule : ChargerPricing) (pw : ℚ) (e : PriceEstimate)
    (hmode : rule.pricing_type = PricingType.per_kwh)
    (h : calculatePriceEstimate d (some st) (some et) (some rule) pw = some e) :
    e.energy_estimate_kwh = e.duration_hours * pw * (8 / 10) ∧
    e.subtotal = e.energy_estimate_kwh * rule.price_value := by
  refine ⟨(calcEstimate_inversion d st et rule pw e h).2.1, ?_⟩
  rw [(calcEstimate_inversion d st et rule pw e h).2.2.1, hmode]

/-- C9: in every pricing mode (per_hour, per_kwh and flat_rate alike), every
    computed estimate reports energy_estimate_kwh equal to duration_hours
    times the power input times 0.8 = 8/10, where duration_hours is the
    length in hours of the selected interval. -/
theorem c9_energy_all_modes (d : CalDate) (st et : ClockTime)
    (rule : ChargerPricing) (pw : ℚ) (e : PriceEstimate)
    (h : calculatePriceEstimate d (some st) (some et) (some rule) pw = some e) :
    e.duration_hours = ((parseDateTime d et : ℚ) - (parseDateTime d st : ℚ)) / 60 ∧
    e.energy_estimate_kwh = e.duration_hours * pw * (8 / 10) := by
  exact ⟨(calcEstimate_inversion d st et rule pw e h).1,
    (calcEstimate_inversion d st et rule pw e h).2.1⟩

/-- C7: every booking the submission path constructs has status pending, or
    confirmed immediately when the charger has auto-accept enabled. -/
theorem c7_status_auto_accept (c : Charger) (userId : Nat) (d : CalDate)
    (st et : Option ClockTime) (est : Option PriceEstimate) (now rid : Nat)
    (bc ac : String) (b : Booking)
    (h : submitBooking c userId d st et est now rid bc ac = some b) :
    b.status = if c.auto_accept_bookings then BookingStatus.confirmed
               else BookingStatus.pending := by
  simp only [submitBooking] at h
  split at h
  · split at h
    · injection h with h
      subst h
      rfl
    · exact Option.noConfusion h
  · exact Option.noConfusion h

/-- C8: the price computation is deterministic: it is a function of the
    selected date, the start and end times, the pricing rule and the power
    input alone, so two calls with identical arguments return identical cost
    breakdowns (subtotal, platform fee, booking fee, total). -/
theorem c8_price_determinism (d1 d2 : CalDate) (st1 st2 et1 et2 : Option ClockTime)
    (p1 p2 : Option ChargerPricing) (pw1 pw2 : ℚ)
    (hd : d1 = d2) (hst : st1 = st2) (het : et1 = et2) (hp : p1 = p2) (hpw : pw1 = pw2) :
    (calculatePriceEstimate d1 st1 et1 p1 pw1).map
        (fun e => (e.subtotal, e.platform_fee, e.booking_fee, e.total)) =
      (calculatePriceEstimate d2 st2 et2 p2 pw2).map
        (fun e => (e.subtotal, e.platform_fee, e.booking_fee, e.total)) := by
  subst hd
  subst hst
  subst het
  subst hp
  subst hpw
  rfl

/-- C10: start and end clock times are interpreted on the same selected
    calendar date; a selection whose end time is not strictly later than its
    start time is rejected with the error whose message reads "End time must
    be after start time", and every selection that passes validation yields an
    interval lying strictly inside the selected day, so no booking interval
    can cross midnight. -/
theorem c10_same_day_no_midnight (d : CalDate) (st et : ClockTime) (now : Nat)
    (hsh : st.hour < 24) (hsm : st.minute < 60)
    (heh : et.hour < 24) (hem : et.minute < 60) :
    (et.toMinutes ≤ st.toMinutes →
       validateTimeSelectionE d (some st) (some et) now = some TimeSelError.endNotAfterStart ∧
       TimeSelError.message TimeSelError.endNotAfterStart = "End time must be after start time") ∧
    (validateTimeSelection d (some st) (some et) now = true →
       d.dayIndex * 1440 ≤ parseDateTime d st ∧
       parseDateTime d st < parseDateTime d et ∧
       parseDateTime d et < (d.dayIndex + 1) * 1440) := by
  constructor
  · intro hle
    refine ⟨?_, rfl⟩
    simp only [validateTimeSelectionE]
    rw [if_pos]
    unfold parseDateTime
    omega
  · intro hv
    simp only [validateTimeSelection, validateTimeSelectionE] at hv
    split at hv
    · simp at hv
    split at hv
    · simp at hv
    rename_i hle hpast
    unfold parseDateTime ClockTime.toMinutes at *
    omega

/-- C5 (amended): the submission path rejects, creating no booking, every
    request whose end is not strictly after its start (raising the
    end-not-after-start validation error) and every request whose start is
    strictly in the past relative to the submission instant (there is no
    clock-skew tolerance); a duration outside the [min, max] session bounds
    of the current rule (zero fields defaulting to 30 and 480 minutes) yields
    no price estimate and hence no booking; and a request passing these
    checks, with the estimate computed from the current selection, is not
    rejected.  No resource-activity check takes part in the submission path. -/
theorem c5_validation_behaviour (c : Charger) (userId : Nat) (d : CalDate)
    (st et : ClockTime) (rule : ChargerPricing) (now rid : Nat) (bc ac : String)
    (hp : c.pricing = some rule) :
    (et.toMinutes ≤ st.toMinutes →
       validateTimeSelectionE d (some st) (some et) now = some TimeSelError.endNotAfterStart ∧
       ∀ est, submitBooking c userId d (some st) (some et) est now rid bc ac = none) ∧
    (parseDateTime d st < now →
       ∀ est, submitBooking c userId d (some st) (some et) est now rid bc ac = none) ∧
    (st.toMinutes < et.toMinutes →
       (et.toMinutes - st.toMinutes < jsOrDefault rule.min_session_minutes 30 ∨
         jsOrDefault rule.max_session_minutes 480 < et.toMinutes - st.toMinutes) →
       calculatePriceEstimate d (some st) (some et) c.pricing c.max_power_kw = none ∧
       submitBooking c userId d (some st) (some et)
         (calculatePriceEstimate d (some st) (some et) c.pricing c.max_power_kw)
         now rid bc ac = none) ∧
    (st.toMinutes < et.toMinutes → now ≤ parseDateTime d st →
       jsOrDefault rule.min_session_minutes 30 ≤ et.toMinutes - st.toMinutes →
       et.toMinutes - st.toMinutes ≤ jsOrDefault rule.max_session_minutes 480 →
       (calculatePriceEstimate d (some st) (some et) c.pricing c.max_power_kw).isSome = true ∧
       (submitBooking c userId d (some st) (some et)
          (calculatePriceEstimate d (some st) (some et) c.pricing c.max_power_kw)
          now rid bc ac).isSome = true) := by
  refine ⟨?_, ?_, ?_, ?_⟩
  · intro hle
    have hle' : parseDateTime d et ≤ parseDateTime d st :=
      (parseDateTime_le_iff d st et).mpr hle
    have hv : validateTimeSelection d (some st) (some et) now = false := by
      simp only [validateTimeSelection, validateTimeSelectionE]
      rw [if_pos hle']
      rfl
    constructor
    · simp only [validateTimeSelectionE]
      rw [if_pos hle']
    · intro est
      simp [submitBooking, hv]
  · intro hpast est
    have hv : validateTimeSelection d (some st) (some et) now = false := by
      simp only [validateTimeSelection, validateTimeSelectionE]
      by_cases hle : parseDateTime d et ≤ parseDateTime d st
      · rw [if_pos hle]
        rfl
      · rw [if_neg hle, if_pos hpast]
        rfl
    simp [submitBooking, hv]
  · intro hlt hdur
    rw [hp]
    have hne : ¬ parseDateTime d et ≤ parseDateTime d st := by
      rw [parseDateTime_le_iff]
      omega
    have hsub : ((parseDateTime d et : ℚ) - (parseDateTime d st : ℚ)) =
        ((et.toMinutes - st.toMinutes : ℕ) : ℚ) := by
      rw [parseDateTime_sub, Nat.cast_sub (le_of_lt hlt)]
    have hcalc : calculatePriceEstimate d (some st) (some et) (some rule) c.max_power_kw = none := by
      simp only [calculatePriceEstimate]
      rw [if_neg hne]
      rcases hdur with h1 | h2
      · have hcond : ((parseDateTime d et : ℚ) - (parseDateTime d st : ℚ)) / 60 <
            (jsOrDefault rule.min_session_minutes 30 : ℚ) / 60 := by
          rw [hsub]
          have h1q : ((et.toMinutes - st.toMinutes : ℕ) : ℚ) <
              ((jsOrDefault rule.min_session_minutes 30 : ℕ) : ℚ) := by
            exact_mod_cast h1
          linarith
        rw [if_pos hcond]
      · by_cases hmin : ((parseDateTime d et : ℚ) - (parseDateTime d st : ℚ)) / 60 <
            (jsOrDefault rule.min_session_minutes 30 : ℚ) / 60
        · rw [if_pos hmin]
        · have hcond : (jsOrDefault rule.max_session_minutes 480 : ℚ) / 60 <
              ((parseDateTime d et : ℚ) - (parseDateTime d st : ℚ)) / 60 := by
            rw [hsub]
            have h2q : ((jsOrDefault rule.max_session_minutes 480 : ℕ) : ℚ) <
                ((et.toMinutes - st.toMinutes : ℕ) : ℚ) := by
              exact_mod_cast h2
            linarith
          rw [if_neg hmin, if_pos hcond]
    refine ⟨hcalc, ?_⟩
    rw [hcalc]
    simp only [submitBooking]
    split <;> rfl
  · intro hlt hnow hmin hmax
    rw [hp]
    have hne : ¬ parseDateTime d et ≤ parseDateTime d st := by
      rw [parseDateTime_le_iff]
      omega
    have hsub : ((parseDateTime d et : ℚ) - (parseDateTime d st : ℚ)) =
        ((et.toMinutes - st.toMinutes : ℕ) : ℚ) := by
      rw [parseDateTime_sub, Nat.cast_sub (le_of_lt hlt)]
    have hminq : ¬ (((parseDateTime d et : ℚ) - (parseDateTime d st : ℚ)) / 60 <
        (jsOrDefault rule.min_session_minutes 30 : ℚ) / 60) := by
      rw [hsub]
      have hq : ((jsOrDefault rule.min_session_minutes 30 : ℕ) : ℚ) ≤
          ((et.toMinutes - st.toMinutes : ℕ) : ℚ) := by
        exact_mod_cast hmin
      push_neg
      linarith
    have hmaxq : ¬ ((jsOrDefault rule.max_session_minutes 480 : ℚ) / 60 <
        ((parseDateTime d et : ℚ) - (parseDateTime d st : ℚ)) / 60) := by
      rw [hsub]
      have hq : ((et.toMinutes - st.toMinutes : ℕ) : ℚ) ≤
          ((jsOrDefault rule.max_session_minutes 480 : ℕ) : ℚ) := by
        exact_mod_cast hmax
      push_neg
      linarith
    have hcalc : (calculatePriceEstimate d (some st) (some et) (some rule) c.max_power_kw).isSome = true := by
      simp only [calculatePriceEstimate]
      rw [if_neg hne, if_neg hminq, if_neg hmaxq]
      rfl
    refine ⟨hcalc, ?_⟩
    have hv : validateTimeSelection d (some st) (some et) now = true := by
      simp only [validateTimeSelection, validateTimeSelectionE]
      rw [if_neg hne, if_neg (by omega : ¬ parseDateTime d st < now)]
      rfl
    rcases hmatch : calculatePriceEstimate d (some st) (some et) (some rule) c.max_power_kw with _ | e
    · rw [hmatch] at hcalc
      simp at hcalc
    · simp [submitBooking, hv]

/-- The estimate the flow computes for a 10:00 to 11:00 selection on ruleR1:
    duration 1 h, energy 8 kWh, subtotal 50, platform fee 7.5, booking fee 10,
    total 67.5. -/
def estR1val : PriceEstimate := ⟨1, 8, 50, 15 / 2, 10, 135 / 2, .per_hour, 50⟩

/-- Evaluation of calculatePriceEstimate on the 10:00 to 11:00 selection. -/
theorem estR1_eq :
    calculatePriceEstimate ⟨0⟩ (some ⟨10, 0⟩) (some ⟨11, 0⟩) (some ruleR1) 10 = some estR1val := by
  norm_num [calculatePriceEstimate, parseDateTime, ClockTime.toMinutes, jsOrDefault, ruleR1, estR1val]

/-- Witness for C3 (amended) at the 10:00 to 11:00 selection on ruleR1. -/
theorem c3_subtotal_unadjusted_witness :
    estR1val.subtotal = estR1val.duration_hours * ruleR1.price_value :=
  c3_subtotal_unadjusted ⟨0⟩ ⟨10, 0⟩ ⟨11, 0⟩ ruleR1 10 estR1val rfl estR1_eq

/-- A per-kWh rule at 20 per kWh with booking fee 5. -/
def ruleKwh : ChargerPricing := ⟨4, 1, .per_kwh, 20, 30, 480, none, none, 1, 1, 5, 0, 0, 0, true⟩

/-- The estimate for a 10:00 to 11:30 selection on ruleKwh with 10 kW power:
    duration 1.5 h, energy 12 kWh, subtotal 240, platform fee 36, total 281. -/
def estKwhVal : PriceEstimate := ⟨3 / 2, 12, 240, 36, 5, 281, .per_kwh, 20⟩

/-- Evaluation of calculatePriceEstimate on the per-kWh selection. -/
theorem estKwh_eq :
    calculatePriceEstimate ⟨0⟩ (some ⟨10, 0⟩) (some ⟨11, 30⟩) (some ruleKwh) 10 = some estKwhVal := by
  norm_num [calculatePriceEstimate, parseDateTime, ClockTime.toMinutes, jsOrDefault, ruleKwh, estKwhVal]

/-- Witness for C4 at the 10:00 to 11:30 selection on ruleKwh. -/
theorem c4_per_kwh_pricing_witness :
    estKwhVal.energy_estimate_kwh = estKwhVal.duration_hours * 10 * (8 / 10) ∧
    estKwhVal.subtotal = estKwhVal.energy_estimate_kwh * ruleKwh.price_value :=
  c4_per_kwh_pricing ⟨0⟩ ⟨10, 0⟩ ⟨11, 30⟩ ruleKwh 10 estKwhVal rfl estKwh_eq

/-- A flat-rate rule at 200 with booking fee 10. -/
def ruleFlat : ChargerPricing := ⟨5, 1, .flat_rate, 200, 30, 480, none, none, 1, 1, 10, 0, 0, 0, true⟩

/-- The estimate for a 10:00 to 11:00 selection on ruleFlat with 10 kW power. -/
def estFlatVal : PriceEstimate := ⟨1, 8, 200, 30, 10, 240, .flat_rate, 200⟩

/-- Evaluation of calculatePriceEstimate on the flat-rate selection. -/
theorem estFlat_eq :
    calculatePriceEstimate ⟨0⟩ (some ⟨10, 0⟩) (some ⟨11, 0⟩) (some ruleFlat) 10 = some estFlatVal := by
  norm_num [calculatePriceEstimate, parseDateTime, ClockTime.toMinutes, jsOrDefault, ruleFlat, estFlatVal]

/-- Witness for C9, exercising the flat_rate mode. -/
theorem c9_energy_all_modes_witness :
    estFlatVal.duration_hours =
      ((parseDateTime ⟨0⟩ ⟨11, 0⟩ : ℚ) - (parseDateTime ⟨0⟩ ⟨10, 0⟩ : ℚ)) / 60 ∧
    estFlatVal.energy_estimate_kwh = estFlatVal.duration_hours * 10 * (8 / 10) :=
  c9_energy_all_modes ⟨0⟩ ⟨10, 0⟩ ⟨11, 0⟩ ruleFlat 10 estFlatVal estFlat_eq

/-- The booking the mock submission constructs for the 10:00 to 11:00
    selection on chargerR1 with random draws 1111 / BKAAAAAAAA / AAAAAA. -/
def bkR1val : Booking :=
  ⟨1111, 1, 7, 600, 660, .confirmed, .pending, "BKAAAAAAAA", 135 / 2, 0, "INR", "AAAAAA"⟩

/-- Evaluation of submitBooking on that selection. -/
theorem bkR1_eq :
    submitBooking chargerR1 7 ⟨0⟩ (some ⟨10, 0⟩) (some ⟨11, 0⟩) estR1 540 1111
      "BKAAAAAAAA" "AAAAAA" = some bkR1val := by
  norm_num [submitBooking, validateTimeSelection, validateTimeSelectionE, calculatePriceEstimate,
    parseDateTime, ClockTime.toMinutes, jsOrDefault, ruleR1, chargerR1, estR1, bkR1val]

/-- Witness for C7 at the auto-accepting chargerR1. -/
theorem c7_status_auto_accept_witness :
    bkR1val.status = if chargerR1.auto_accept_bookings then BookingStatus.confirmed
                     else BookingStatus.pending :=
  c7_status_auto_accept chargerR1 7 ⟨0⟩ (some ⟨10, 0⟩) (some ⟨11, 0⟩) estR1 540 1111
    "BKAAAAAAAA" "AAAAAA" bkR1val bkR1_eq

/-- Witness for C8 at two syntactically identical argument lists. -/
theorem c8_price_determinism_witness :
    (calculatePriceEstimate ⟨0⟩ (some ⟨10, 0⟩) (some ⟨11, 0⟩) (some ruleR1) 10).map
        (fun e => (e.subtotal, e.platform_fee, e.booking_fee, e.total)) =
      (calculatePriceEstimate ⟨0⟩ (some ⟨10, 0⟩) (some ⟨11, 0⟩) (some ruleR1) 10).map
        (fun e => (e.subtotal, e.platform_fee, e.booking_fee, e.total)) :=
  c8_price_determinism ⟨0⟩ ⟨0⟩ (some ⟨10, 0⟩) (some ⟨10, 0⟩) (some ⟨11, 0⟩) (some ⟨11, 0⟩)
    (some ruleR1) (some ruleR1) 10 10 rfl rfl rfl rfl rfl

/-- Witness for C10 at the 21:30 to 23:45 selection on the epoch day. -/
theorem c10_same_day_no_midnight_witness :
    ((ClockTime.toMinutes ⟨23, 45⟩ ≤ ClockTime.toMinutes ⟨21, 30⟩ →
       validateTimeSelectionE ⟨0⟩ (some ⟨21, 30⟩) (some ⟨23, 45⟩) 0 =
         some TimeSelError.endNotAfterStart ∧
       TimeSelError.message TimeSelError.endNotAfterStart =
         "End time must be after start time") ∧
     (validateTimeSelection ⟨0⟩ (some ⟨21, 30⟩) (some ⟨23, 45⟩) 0 = true →
       (⟨0⟩ : CalDate).dayIndex * 1440 ≤ parseDateTime ⟨0⟩ ⟨21, 30⟩ ∧
       parseDateTime ⟨0⟩ ⟨21, 30⟩ < parseDateTime ⟨0⟩ ⟨23, 45⟩ ∧
       parseDateTime ⟨0⟩ ⟨23, 45⟩ < ((⟨0⟩ : CalDate).dayIndex + 1) * 1440)) :=
  c10_same_day_no_midnight ⟨0⟩ ⟨21, 30⟩ ⟨23, 45⟩ 0 (by decide) (by decide) (by decide) (by decide)

/-- Witness for C5 (amended): the well-formed 10:00 to 11:30 request on
    chargerR1 submitted at 09:00 is not rejected. -/
theorem c5_validation_behaviour_witness :
    (calculatePriceEstimate ⟨0⟩ (some ⟨10, 0⟩) (some ⟨11, 30⟩)
        chargerR1.pricing chargerR1.max_power_kw).isSome = true ∧
    (submitBooking chargerR1 7 ⟨0⟩ (some ⟨10, 0⟩) (some ⟨11, 30⟩)
        (calculatePriceEstimate ⟨0⟩ (some ⟨10, 0⟩) (some ⟨11, 30⟩)
          chargerR1.pricing chargerR1.max_power_kw)
        540 99 "BKDDDDDDDD" "DDDDDD").isSome = true :=
  (c5_validation_behaviour chargerR1 7 ⟨0⟩ ⟨10, 0⟩ ⟨11, 30⟩ ruleR1 540 99
      "BKDDDDDDDD" "DDDDDD" rfl).2.2.2 (by decide) (by decide) (by decide) (by decide)

end ChargeMitra
